import Mathlib

/-!
Verification of the TrustLayer UI risk-scoring logic (`src/App.jsx`).

The repository contains two variants of the same single-page app, concatenated
in `App.jsx`:

* variant 1: the `demoResult` `useMemo` scorer (base 82) together with the
  helpers `clamp` and `scoreToVerdict` (thresholds 75 / 45);
* variant 2: the `demoScan` function (base 90, thresholds 70 / 40), the
  `canScan` input gating and the `onScan` submission handler.

Strings are embedded as Lean `String`; the JavaScript string operations used
by the scorers (`includes`, `split`, `toLowerCase`, `trim`, the anchored
regex `^https?://`) are embedded below as executable functions on the
character list of the string.  JavaScript numbers are embedded as `Int`:
every arithmetic operation performed by the scorers (subtraction of integer
weights from an integer base, `Math.max` / `Math.min`) stays within integers.
The wall clock read by `new Date().toISOString()` in `demoScan` is made an
explicit `now : String` parameter.
-/

namespace TrustLayer

/-- Embedding of JavaScript `pat.isPrefix-like` check: does the character
list `l` start with the character list `pat`? -/
def isPrefixList : List Char → List Char → Bool
  | [], _ => true
  | _ :: _, [] => false
  | p :: ps, c :: cs => p == c && isPrefixList ps cs

/-- Does the character list `l` contain `pat` as a contiguous substring
(at any position, like JavaScript `String.prototype.includes`)? -/
def hasSubList (pat : List Char) : List Char → Bool
  | [] => isPrefixList pat []
  | c :: cs => isPrefixList pat (c :: cs) || hasSubList pat cs

/-- Embedding of JavaScript `s.includes(pat)`. -/
def jsIncludes (s pat : String) : Bool :=
  hasSubList pat.data s.data

/-- Embedding of JavaScript `s.toLowerCase()` (per-character lowering; the
heuristics only inspect ASCII substrings). -/
def jsToLower (s : String) : String :=
  ⟨s.data.map Char.toLower⟩

/-- Embedding of JavaScript `s.split("//")` on the character list: split at
every non-overlapping, leftmost occurrence of `//`. -/
def splitSlashSlash : List Char → List (List Char)
  | [] => [[]]
  | [c] => [[c]]
  | a :: b :: rest =>
    if a == '/' && b == '/' then
      [] :: splitSlashSlash rest
    else
      match splitSlashSlash (b :: rest) with
      | [] => [[a]]
      | h :: t => (a :: h) :: t

/-- Embedding of JavaScript `s.split("/")` on the character list. -/
def splitSlash : List Char → List (List Char)
  | [] => [[]]
  | c :: rest =>
    if c == '/' then
      [] :: splitSlash rest
    else
      match splitSlash rest with
      | [] => [[c]]
      | h :: t => (c :: h) :: t

/-- Embedding of JavaScript `s.split(".")` on the character list. -/
def splitDot : List Char → List (List Char)
  | [] => [[]]
  | c :: rest =>
    if c == '.' then
      [] :: splitDot rest
    else
      match splitDot rest with
      | [] => [[c]]
      | h :: t => (c :: h) :: t

/-- Embedding of the anchored regex test `/^https?:\/\//.test(u)` from
`demoScan`: the string starts with `http://` or with `https://`. -/
def schemeOk (u : String) : Bool :=
  isPrefixList "http://".data u.data || isPrefixList "https://".data u.data

/-- Embedding of the subdomain-depth test of `demoScan` (line 597):
`u.split("//")[1]?.split("/")[0]?.split(".").length > 3`.  When the string
has no `//` separator, `split("//")[1]` is `undefined` in JavaScript and the
optional chaining makes the whole test `false`; this is the `none` branch. -/
def subdomainTest (u : String) : Bool :=
  match (splitSlashSlash u.data)[1]? with
  | none => false
  | some host => 3 < (splitDot ((splitSlash host).headD [])).length

/-- One explanatory signal of variant 2 (`demoScan`): the objects pushed by
`add(level, text, delta)` carry a `level` and a `text`. -/
structure Signal2 where
  level : String
  text : String
deriving DecidableEq, Repr

/-- One heuristic rule of `demoScan`: its match test on the lowercased URL,
the `level` and `text` of the signal it pushes, and the (negative) `delta`
it adds to the score. -/
structure Rule where
  test : String → Bool
  level : String
  text : String
  delta : Int

/-- The missing-scheme heuristic of `demoScan` (`src/App.jsx` line 593). -/
def ruleScheme : Rule :=
  ⟨fun u => !(schemeOk u), "warn", "URL is missing http/https scheme.", -20⟩

/-- The `@`-sign heuristic of `demoScan` (`src/App.jsx` line 594). -/
def ruleAt : Rule :=
  ⟨fun u => jsIncludes u "@", "danger",
    "Contains '@' which can hide the real destination.", -35⟩

/-- The high-risk-keyword heuristic of `demoScan` (`src/App.jsx` line 595). -/
def ruleKeywords : Rule :=
  ⟨fun u => jsIncludes u "login" || jsIncludes u "verify" || jsIncludes u "account",
    "warn", "Contains high-risk keywords (login/verify/account).", -15⟩

/-- The shortened-URL heuristic of `demoScan` (`src/App.jsx` line 596). -/
def ruleShortener : Rule :=
  ⟨fun u => jsIncludes u "bit.ly" || jsIncludes u "tinyurl" || jsIncludes u "t.co",
    "warn", "Shortened URL — destination is obscured.", -15⟩

/-- The subdomain-depth heuristic of `demoScan` (`src/App.jsx` line 597). -/
def ruleSubdomain : Rule :=
  ⟨fun u => subdomainTest u, "warn", "Subdomain depth is unusually high.", -10⟩

/-- The financial-keyword heuristic of `demoScan` (`src/App.jsx` line 598). -/
def ruleFinancial : Rule :=
  ⟨fun u => jsIncludes u "pay" || jsIncludes u "bank",
    "warn", "Financial keyword detected.", -10⟩

/-- The six sequential `if` heuristics of `demoScan`
(`src/App.jsx` lines 593-598), in source order. -/
def demoScanRules : List Rule :=
  [ruleScheme, ruleAt, ruleKeywords, ruleShortener, ruleSubdomain, ruleFinancial]

/-- The rules of `demoScan` whose test matches the (lowercased) URL `u`,
in source order.  Because each `if` of `demoScan` appends its signal and adds
its delta independently, `demoScan` is exactly a fold over this list. -/
def matchedRules (u : String) : List Rule :=
  demoScanRules.filter (fun r => r.test u)

/-- Sum of the score deltas of a list of rules. -/
def sumDeltas (l : List Rule) : Int :=
  l.foldl (fun s r => s + r.delta) 0

/-- The score of `demoScan` before clamping: the base 90 plus the (negative)
deltas of every matched rule. -/
def rawScore (u : String) : Int :=
  90 + sumDeltas (matchedRules u)

/-- Verdict and recommendation of `demoScan` as a function of the clamped
score (`src/App.jsx` lines 603-612): default `safe`, overridden to
`malicious` below 40 and to `suspicious` below 70. -/
def demoVerdict (score : Int) : String × String :=
  if score < 40 then
    ("malicious",
     "Do not proceed. Avoid entering credentials and consider blocking/reporting.")
  else if score < 70 then
    ("suspicious",
     "Proceed carefully. Verify domain ownership and avoid entering sensitive data.")
  else
    ("safe", "Proceed with normal caution.")

/-- The result object returned by `demoScan` (`src/App.jsx` lines 618-626). -/
structure ScanResult where
  url : String
  verdict : String
  score : Int
  signals : List Signal2
  recommendation : String
  timestamp : String
  engine : String
deriving DecidableEq, Repr

/-- The placeholder signal pushed when no rule fired
(`src/App.jsx` lines 614-616). -/
def placeholderSignal : Signal2 :=
  ⟨"ok", "No obvious high-risk signals detected in this demo check."⟩

/-- Embedding of `demoScan` (`src/App.jsx` lines 582-627, variant 2).  The
wall-clock value produced by `new Date().toISOString()` is the explicit
parameter `now`. -/
def demoScan (url : String) (now : String) : ScanResult :=
  let u := jsToLower url
  let sigs := (matchedRules u).map (fun r => (⟨r.level, r.text⟩ : Signal2))
  let score := max 0 (min 100 (rawScore u))
  let v := demoVerdict score
  { url := url
    verdict := v.1
    score := score
    signals := if sigs.isEmpty then [placeholderSignal] else sigs
    recommendation := v.2
    timestamp := now
    engine := "trustlayer-ui-demo" }

/-- Embedding of `const clamp = (n, min, max) => Math.max(min, Math.min(max, n))`
(`src/App.jsx` line 33, variant 1). -/
def clamp (n mn mx : Int) : Int :=
  max mn (min mx n)

/-- The verdict object of variant 1 without its `icon` field (the icon is a
React component chosen together with the label and tone; it carries no
behavioral content beyond the tone). -/
structure Verdict where
  label : String
  tone : String
deriving DecidableEq, Repr

/-- Embedding of `scoreToVerdict` (`src/App.jsx` lines 35-39, variant 1):
thresholds 75 and 45. -/
def scoreToVerdict (score : Int) : Verdict :=
  if 75 ≤ score then ⟨"Safe", "safe"⟩
  else if 45 ≤ score then ⟨"Caution", "warn"⟩
  else ⟨"High Risk", "risk"⟩

/-- One explanatory signal of variant 1 (`demoResult`). -/
structure Signal1 where
  label : String
  detail : String
  weight : Int
  severity : String
deriving DecidableEq, Repr

/-- One heuristic rule of `demoResult` (variant 1). -/
structure Rule1 where
  test : String → Bool
  label : String
  detail : String
  weight : Int
  severity : String

/-- The three sequential `if` heuristics of `demoResult`
(`src/App.jsx` lines 94-120, variant 1), in source order. -/
def demoResultRules : List Rule1 :=
  [ ⟨fun u => jsIncludes u "login", "Credential lure pattern",
      "URL contains login keyword; commonly used in phishing flows.", 25, "medium"⟩,
    ⟨fun u => jsIncludes u "bit.ly" || jsIncludes u "tinyurl" || jsIncludes u "t.co",
      "Shortened URL",
      "Shorteners obscure final destination; higher social engineering risk.",
      30, "high"⟩,
    ⟨fun u => jsIncludes u "secure-" || jsIncludes u "verify" || jsIncludes u "update",
      "Impersonation language",
      "Security-themed wording may indicate trust manipulation.", 15, "medium"⟩ ]

/-- The result computed by the `demoResult` `useMemo`
(`src/App.jsx` lines 88-146, variant 1). -/
structure DemoResult where
  score : Int
  verdict : Verdict
  signals : List Signal1
  recommendation : String
  dist : List (String × Int)
  severityBars : List (String × Nat)
deriving DecidableEq, Repr

/-- Embedding of the `demoResult` scorer (`src/App.jsx` lines 88-146,
variant 1): base 82, the three rules above, `clamp` to `[0, 100]`,
`scoreToVerdict`, the two chart projections and the recommendation keyed by
the verdict tone.  It reads nothing but `url`. -/
def demoResult (url : String) : DemoResult :=
  let u := jsToLower url
  let matched := demoResultRules.filter (fun r => r.test u)
  let sigs := matched.map (fun r => (⟨r.label, r.detail, r.weight, r.severity⟩ : Signal1))
  let score := clamp (82 - matched.foldl (fun s r => s + r.weight) 0) 0 100
  let verdict := scoreToVerdict score
  { score := score
    verdict := verdict
    signals := sigs
    recommendation :=
      if verdict.tone == "safe" then
        "Proceed normally. If prompted for credentials, verify the domain matches the expected organization."
      else if verdict.tone == "warn" then
        "Proceed with caution. Avoid entering credentials. Validate sender and domain ownership."
      else
        "Do not proceed. Avoid entering any credentials. Verify via an alternate trusted channel."
    dist := [("Benign Indicators", score), ("Risk Indicators", 100 - score)]
    severityBars :=
      [("High", (sigs.filter (fun s => s.severity == "high")).length),
       ("Medium", (sigs.filter (fun s => s.severity == "medium")).length),
       ("Low", (sigs.filter (fun s => s.severity == "low")).length)] }

/-- Embedding of JavaScript `s.trim()` (variant 2's `url.trim()`): drop
whitespace from both ends. -/
def jsTrim (s : String) : String :=
  ⟨((s.data.dropWhile Char.isWhitespace).reverse.dropWhile Char.isWhitespace).reverse⟩

/-- Embedding of `canScan` (`src/App.jsx` line 635, variant 2):
`url.trim().length > 6`. -/
def canScan (url : String) : Bool :=
  decide (6 < (jsTrim url).length)

/-- The pieces of React state of variant 2's `App` that the scan flow
touches (`url`, `isScanning`, `result`, `error`). -/
structure UIState where
  url : String
  isScanning : Bool
  result : Option ScanResult
  error : String
deriving DecidableEq, Repr

/-- Embedding of one completed press of the Scan button in variant 2
(`src/App.jsx` lines 637-652, 702).  The button is rendered with
`disabled={!canScan || isScanning}`, so a press does nothing unless
`canScan` holds and no scan is in flight; otherwise `onScan` clears the
error, runs `demoScan` on the trimmed URL and stores the result, ending
with `isScanning` false. -/
def scanAttempt (st : UIState) (now : String) : UIState :=
  if !canScan st.url || st.isScanning then st
  else
    { st with
      error := ""
      result := some (demoScan (jsTrim st.url) now)
      isScanning := false }

/-- The expected payload of the remote scoring endpoint as documented by the
spec (section 6): every field optional, with defaults score 0, risk level
"medium", confidence "low", recommended action "caution", reasons empty. -/
structure RemotePayload where
  score : Option Int
  riskLevel : Option String
  confidence : Option String
  recommendedAction : Option String
  reasons : List String
deriving DecidableEq, Repr

/-- One signal derived from a remote reason string. -/
structure RemoteSignal where
  label : String
  detail : String
  severity : String
deriving DecidableEq, Repr

/-- The normalized output of the remote variant. -/
structure RemoteResult where
  score : Int
  tone : String
  signals : List RemoteSignal
  recommendation : String
deriving DecidableEq, Repr

/-- Modelled from the spec: the recommendation table of the remote variant,
keyed by the recommended action (`allow` / `caution` / `block`) rather than
by the verdict.  The remote variant is absent from `src/` (the UI only stubs
the API call), so the three advisory texts are modelled placeholders; the
table's shape — three fixed entries selected by recommended action — is what
the spec prescribes. -/
def recommendationForAction (a : String) : String :=
  if a == "block" then "Do not proceed: the scorer recommends blocking this URL."
  else if a == "allow" then "Proceed normally: the scorer allows this URL."
  else "Proceed with caution: the scorer advises care with this URL."

/-- Modelled from the spec: the direct mapping from the remote risk level to
the verdict tone (bypassing the score thresholds of the local path). -/
def toneForRisk (lvl : String) : String :=
  if lvl == "high" then "risk"
  else if lvl == "low" then "safe"
  else "warn"

/-- Modelled from the spec: the label of a remote reason string is its
substring before the first `:` (the whole string when it has no `:`). -/
def labelOfReason (r : String) : String :=
  ⟨r.data.takeWhile (fun c => c ≠ ':')⟩

/-- Modelled from the spec: the remote-normalization function, which is
absent from `src/` (only its future call site is stubbed in `onScan`).
Following section 4 of the spec it (a) passes the score through with
default 0, (b) maps the risk level directly to the verdict tone, (c) turns
each reason string into a signal labelled by its prefix before the first
`:`, with the whole string as detail and the severity copied uniformly from
the top-level risk level, and (d) selects the recommendation by the
recommended action. -/
def normalizeRemote (p : RemotePayload) : RemoteResult :=
  let lvl := p.riskLevel.getD "medium"
  { score := p.score.getD 0
    tone := toneForRisk lvl
    signals := p.reasons.map (fun r => ⟨labelOfReason r, r, lvl⟩)
    recommendation := recommendationForAction (p.recommendedAction.getD "caution") }

/-- Rank of a variant-1 verdict, higher is safer: `risk` 0, `warn` 1,
`safe` 2. -/
def verdictTier (v : Verdict) : Nat :=
  if v.tone == "safe" then 2 else if v.tone == "warn" then 1 else 0

/-- Rank of a variant-2 verdict string, higher is safer: `malicious` 0,
`suspicious` 1, `safe` 2. -/
def demoTier (v : String) : Nat :=
  if v == "safe" then 2 else if v == "suspicious" then 1 else 0

/-- C2: for every score `s`, `scoreToVerdict` returns Safe when `s ≥ 75`,
Caution when `45 ≤ s < 75`, and High Risk when `s < 45`. -/
theorem c2_scoreToVerdict_thresholds (s : Int) :
    (75 ≤ s → scoreToVerdict s = ⟨"Safe", "safe"⟩) ∧
    (45 ≤ s → s < 75 → scoreToVerdict s = ⟨"Caution", "warn"⟩) ∧
    (s < 45 → scoreToVerdict s = ⟨"High Risk", "risk"⟩) := by
  unfold scoreToVerdict
  refine ⟨fun h1 => ?_, fun h1 h2 => ?_, fun h1 => ?_⟩ <;>
    split_ifs <;> first | rfl | omega

/-- Witness for C2 at the concrete score 80. -/
theorem c2_scoreToVerdict_thresholds_witness :
    (75 : Int) ≤ 80 ∧ scoreToVerdict 80 = ⟨"Safe", "safe"⟩ :=
  ⟨by decide, (c2_scoreToVerdict_thresholds 80).1 (by decide)⟩

/-- C3: the verdict is a monotone step function of the score, for both the
variant-1 mapping `scoreToVerdict` (thresholds 75 / 45) and the variant-2
mapping of `demoScan` (thresholds 70 / 40): raising the score never lowers
the tier. -/
theorem c3_verdict_monotone (s1 s2 : Int) (h : s1 ≤ s2) :
    verdictTier (scoreToVerdict s1) ≤ verdictTier (scoreToVerdict s2) ∧
    demoTier (demoVerdict s1).1 ≤ demoTier (demoVerdict s2).1 := by
  unfold verdictTier demoTier scoreToVerdict demoVerdict
  constructor <;> split_ifs <;> simp_all <;> omega

/-- Witness for C3 at the concrete scores 10 and 80. -/
theorem c3_verdict_monotone_witness :
    (10 : Int) ≤ 80 ∧
    (verdictTier (scoreToVerdict 10) ≤ verdictTier (scoreToVerdict 80) ∧
     demoTier (demoVerdict 10).1 ≤ demoTier (demoVerdict 80).1) :=
  ⟨by decide, c3_verdict_monotone 10 80 (by decide)⟩

/-- C4: clamping any score to `[0, 100]` lands in `[0, 100]`, and the
(integer) `score` field produced by both scorers is in `[0, 100]` for every
input. -/
theorem c4_score_in_range :
    (∀ s : Int, 0 ≤ clamp s 0 100 ∧ clamp s 0 100 ≤ 100) ∧
    (∀ url now : String,
      0 ≤ (demoScan url now).score ∧ (demoScan url now).score ≤ 100) ∧
    (∀ url : String,
      0 ≤ (demoResult url).score ∧ (demoResult url).score ≤ 100) := by
  refine ⟨fun s => ⟨?_, ?_⟩, fun url now => ⟨?_, ?_⟩, fun url => ⟨?_, ?_⟩⟩ <;>
    · simp only [clamp, demoScan, demoResult]
      omega

/-- C6: on `http://bit.ly/login-verify` exactly the keyword rule
(login/verify/account) and the shortened-URL rule fire, the score is the
base 90 minus the sum −15 − 15 of the matched weights, clamped to
`[0, 100]` (hence 60), and the verdict is the one the threshold table
assigns to the clamped score (`suspicious`). -/
theorem c6_bitly_login_verify (now : String) :
    (demoScan "http://bit.ly/login-verify" now).signals =
      [⟨"warn", "Contains high-risk keywords (login/verify/account)."⟩,
       ⟨"warn", "Shortened URL — destination is obscured."⟩] ∧
    sumDeltas (matchedRules (jsToLower "http://bit.ly/login-verify")) = -15 + -15 ∧
    (demoScan "http://bit.ly/login-verify" now).score = max 0 (min 100 (90 + (-15 + -15))) ∧
    (demoScan "http://bit.ly/login-verify" now).verdict = (demoVerdict 60).1 :=
  ⟨rfl, by decide, rfl, rfl⟩

/-- C7: on `https://example.com` no rule fires, the score is the base 90,
the verdict is `safe`, and the signal list is exactly the informational
placeholder, which contributes nothing to the score (the score is the base
plus the empty sum of matched weights). -/
theorem c7_example_com (now : String) :
    matchedRules (jsToLower "https://example.com") = [] ∧
    (demoScan "https://example.com" now).score = 90 ∧
    (demoScan "https://example.com" now).verdict = "safe" ∧
    (demoScan "https://example.com" now).signals = [placeholderSignal] ∧
    rawScore (jsToLower "https://example.com") = 90 + sumDeltas [] :=
  ⟨rfl, rfl, rfl, rfl, rfl⟩

/-- C9: normalizing the remote payload with score 30, risk level `high`,
recommended action `block` and the single reason
`shortener: obscures destination` yields verdict tone `risk`, exactly one
signal labelled `shortener` (the prefix before the first colon) whose detail
is the full reason string, and the block-tier advisory text as the
recommendation. -/
theorem c9_remote_normalization :
    normalizeRemote
      ⟨some 30, some "high", none, some "block", ["shortener: obscures destination"]⟩ =
      ⟨30, "risk",
       [⟨"shortener", "shortener: obscures destination", "high"⟩],
       recommendationForAction "block"⟩ := by
  decide

/-- C1 counterexample: `demoScan` is not deterministic in every field of its
result — its `timestamp` field is the wall-clock reading
(`new Date().toISOString()`), so two evaluations on the same URL at
different instants produce different results. -/
theorem c1_not_deterministic_in_every_field :
    demoScan "https://example.com" "2025-01-01T00:00:00.000Z" ≠
    demoScan "https://example.com" "2025-01-01T00:00:01.000Z" := by
  decide

/-- C1 amended: every field of the `demoScan` result except `timestamp` is
independent of the evaluation instant, i.e. the scorer is deterministic and
side-effect-free up to the timestamp; the `timestamp` field simply records
the clock value passed in. -/
theorem c1_deterministic_except_timestamp (url t1 t2 : String) :
    (demoScan url t1).score = (demoScan url t2).score ∧
    (demoScan url t1).verdict = (demoScan url t2).verdict ∧
    (demoScan url t1).signals = (demoScan url t2).signals ∧
    (demoScan url t1).recommendation = (demoScan url t2).recommendation ∧
    (demoScan url t1).url = (demoScan url t2).url ∧
    (demoScan url t1).engine = (demoScan url t2).engine ∧
    (demoScan url t1).timestamp = t1 :=
  ⟨rfl, rfl, rfl, rfl, rfl, rfl, rfl⟩

/-- C8 counterexample: pressing Scan with an empty URL leaves the UI state
completely unchanged — the scan is indeed blocked (the result stays `none`),
but no inline message appears: the `error` field stays empty, because the
gated variant blocks only by disabling the button and its `error` is set
solely inside the `catch` of `onScan`. -/
theorem c8_empty_url_shows_no_message :
    scanAttempt ⟨"", false, none, ""⟩ "2025-01-01T00:00:00.000Z" =
      ⟨"", false, none, ""⟩ ∧
    (scanAttempt ⟨"", false, none, ""⟩ "2025-01-01T00:00:00.000Z").error = "" := by
  decide

/-- C8 amended: in the variant with enablement gating, a submission whose
trimmed URL is empty is blocked — the button is disabled, so the press
changes nothing and in particular no scan runs — but no inline message is
shown (the state, including `error`, is untouched); the scan action is
enabled exactly when the trimmed URL is longer than 6 characters. -/
theorem c8_empty_url_blocks (st : UIState) (now : String)
    (h : jsTrim st.url = "") :
    scanAttempt st now = st ∧
    (∀ u : String, canScan u = true ↔ 6 < (jsTrim u).length) := by
  constructor
  · have hc : canScan st.url = false := by
      unfold canScan
      rw [h]
      decide
    unfold scanAttempt
    rw [hc]
    simp
  · intro u
    unfold canScan
    simp

/-- Witness for C8 at a concrete state whose URL is whitespace only. -/
theorem c8_empty_url_blocks_witness :
    jsTrim "   " = "" ∧
    (scanAttempt ⟨"   ", false, none, ""⟩ "2025-01-01T00:00:00.000Z" =
        ⟨"   ", false, none, ""⟩ ∧
      (∀ u : String, canScan u = true ↔ 6 < (jsTrim u).length)) :=
  ⟨by decide,
   c8_empty_url_blocks ⟨"   ", false, none, ""⟩ "2025-01-01T00:00:00.000Z"
     (by decide)⟩

/-- Folding the deltas from an arbitrary start is the start plus the sum. -/
theorem sumDeltas_shift (l : List Rule) :
    ∀ init : Int, l.foldl (fun s r => s + r.delta) init = init + sumDeltas l := by
  induction l with
  | nil => intro init; simp [sumDeltas]
  | cons r t ih =>
    intro init
    simp only [sumDeltas, List.foldl_cons] at *
    rw [ih (init + r.delta), ih (0 + r.delta)]
    omega

/-- Sum of the deltas of a nonempty rule list. -/
theorem sumDeltas_cons (r : Rule) (l : List Rule) :
    sumDeltas (r :: l) = r.delta + sumDeltas l := by
  show List.foldl (fun s r => s + r.delta) 0 (r :: l) = r.delta + sumDeltas l
  rw [List.foldl_cons, sumDeltas_shift]
  omega

/-- Membership of a character makes the singleton substring test succeed. -/
theorem hasSubList_singleton_of_mem {c : Char} :
    ∀ {l : List Char}, c ∈ l → hasSubList [c] l = true := by
  intro l h
  induction l with
  | nil => cases h
  | cons a t ih =>
    unfold hasSubList
    rcases List.mem_cons.mp h with h1 | h2
    · subst h1
      simp [isPrefixList]
    · simp [ih h2]

/-- C5: any URL containing `@` makes `demoScan` emit the danger-severity
`@` signal; the pre-clamp score is the base 90 minus 35 — the `@` rule's
weight — plus whatever the other five rules subtract, and −35 is the largest
single weight of the rule table. -/
theorem c5_at_sign_danger (url now : String) (h : '@' ∈ url.data) :
    ((⟨"danger", "Contains '@' which can hide the real destination."⟩ : Signal2) ∈
      (demoScan url now).signals) ∧
    ruleAt ∈ matchedRules (jsToLower url) ∧
    rawScore (jsToLower url) =
      90 - 35 +
        sumDeltas (List.filter (fun r => r.test (jsToLower url))
          [ruleScheme, ruleKeywords, ruleShortener, ruleSubdomain, ruleFinancial]) ∧
    (∀ r ∈ demoScanRules, -35 ≤ r.delta) := by
  have hmap : '@' ∈ (jsToLower url).data :=
    List.mem_map.mpr ⟨'@', h, by decide⟩
  have hat : jsIncludes (jsToLower url) "@" = true :=
    hasSubList_singleton_of_mem hmap
  have hmem : ruleAt ∈ matchedRules (jsToLower url) := by
    unfold matchedRules
    refine List.mem_filter.mpr ⟨by simp [demoScanRules], ?_⟩
    show ruleAt.test (jsToLower url) = true
    simpa [ruleAt] using hat
  have hsig : ((⟨"danger", "Contains '@' which can hide the real destination."⟩ :
      Signal2) ∈
      (matchedRules (jsToLower url)).map
        (fun r => (⟨r.level, r.text⟩ : Signal2))) :=
    List.mem_map.mpr ⟨ruleAt, hmem, rfl⟩
  refine ⟨?_, hmem, ?_, ?_⟩
  · rcases e : (matchedRules (jsToLower url)).map
        (fun r => (⟨r.level, r.text⟩ : Signal2)) with _ | ⟨x, t⟩
    · rw [e] at hsig
      cases hsig
    · rw [e] at hsig
      simp only [demoScan, e]
      simpa using hsig
  · unfold rawScore matchedRules demoScanRules
    have hatT : ruleAt.test (jsToLower url) = true := by simpa [ruleAt] using hat
    simp only [List.filter_cons, hatT]
    split_ifs <;>
      simp [sumDeltas_cons, sumDeltas, ruleScheme, ruleAt, ruleKeywords,
        ruleShortener, ruleSubdomain, ruleFinancial]
  · intro r hr
    simp only [demoScanRules, List.mem_cons, List.not_mem_nil, or_false] at hr
    rcases hr with rfl | rfl | rfl | rfl | rfl | rfl <;> decide

/-- Witness for C5 at the concrete URL `a@b`. -/
theorem c5_at_sign_danger_witness :
    '@' ∈ ("a@b" : String).data ∧
    (((⟨"danger", "Contains '@' which can hide the real destination."⟩ : Signal2) ∈
        (demoScan "a@b" "2025-01-01T00:00:00.000Z").signals) ∧
      ruleAt ∈ matchedRules (jsToLower "a@b") ∧
      rawScore (jsToLower "a@b") =
        90 - 35 +
          sumDeltas (List.filter (fun r => r.test (jsToLower "a@b"))
            [ruleScheme, ruleKeywords, ruleShortener, ruleSubdomain, ruleFinancial]) ∧
      (∀ r ∈ demoScanRules, -35 ≤ r.delta)) :=
  ⟨by decide, c5_at_sign_danger "a@b" "2025-01-01T00:00:00.000Z" (by decide)⟩

/-- Lowercasing a character only ever produces `/` from `/` itself. -/
theorem toLower_eq_slash_imp {c : Char} (h : c.toLower = '/') : c = '/' := by
  simp only [Char.toLower] at h
  split at h
  · exfalso
    next hc =>
      obtain ⟨h65, h90⟩ := hc
      obtain ⟨n, hn⟩ : ∃ n, c.toNat = n := ⟨_, rfl⟩
      rw [hn] at h h65 h90
      interval_cases n <;> exact absurd h (by decide)
  · exact h

/-- Per-character lowercasing cannot create a `//` substring. -/
theorem noDblSlash_map_toLower :
    ∀ l : List Char, hasSubList ['/', '/'] l = false →
      hasSubList ['/', '/'] (l.map Char.toLower) = false := by
  intro l
  induction l with
  | nil => intro _; rfl
  | cons a t ih =>
    intro h
    simp only [hasSubList, Bool.or_eq_false_iff] at h
    obtain ⟨h1, h2⟩ := h
    simp only [List.map_cons, hasSubList, Bool.or_eq_false_iff]
    refine ⟨?_, ih h2⟩
    cases t with
    | nil => simp [isPrefixList]
    | cons b t2 =>
      simp only [isPrefixList, List.map_cons, Bool.and_eq_false_iff,
        beq_eq_false_iff_ne, ne_eq] at h1 ⊢
      rcases h1 with h1 | h1
      · left
        intro hcon
        exact h1 ((toLower_eq_slash_imp hcon.symm).symm)
      · rcases h1 with h1 | h1
        · right
          left
          intro hcon
          exact h1 ((toLower_eq_slash_imp hcon.symm).symm)
        · right
          right
          exact h1

/-- Splitting on `//` a character list that has no `//` yields the whole
list as the single chunk. -/
theorem splitSlashSlash_of_no_dbl :
    ∀ l : List Char, hasSubList ['/', '/'] l = false → splitSlashSlash l = [l]
  | [] => fun _ => rfl
  | [_] => fun _ => rfl
  | a :: b :: rest => fun h => by
    have hcomp : isPrefixList ['/', '/'] (a :: b :: rest) = false ∧
        hasSubList ['/', '/'] (b :: rest) = false := by
      simpa [hasSubList, Bool.or_eq_false_iff] using h
    have ih := splitSlashSlash_of_no_dbl (b :: rest) hcomp.2
    have hab : (a == '/' && b == '/') = false := by
      have h1 := hcomp.1
      by_cases hA : a = '/'
      · by_cases hB : b = '/'
        · subst hA
          subst hB
          simp [isPrefixList] at h1
        · simp [beq_iff_eq, hB]
      · simp [beq_iff_eq, hA]
    rw [splitSlashSlash, hab]
    simp only [Bool.false_eq_true, if_false]
    rw [ih]

/-- C10: on every input whose text contains no `//` separator (so the host
portion `split("//")[1]` is `undefined`), the subdomain-depth test of
`demoScan` evaluates to false — the embedding's `none` branch models the
optional chaining that keeps the JavaScript from failing — so no
subdomain-depth signal is appended and the pre-clamp score is the base 90
plus the deltas of the other five rules only. -/
theorem c10_no_host_subdomain_rule_off (url now : String)
    (h : jsIncludes url "//" = false) :
    subdomainTest (jsToLower url) = false ∧
    (∀ s ∈ (demoScan url now).signals,
      s.text ≠ "Subdomain depth is unusually high.") ∧
    rawScore (jsToLower url) =
      90 + sumDeltas (List.filter (fun r => r.test (jsToLower url))
        [ruleScheme, ruleAt, ruleKeywords, ruleShortener, ruleFinancial]) := by
  have hmapped : hasSubList ['/', '/'] (jsToLower url).data = false :=
    noDblSlash_map_toLower url.data h
  have hsubF : subdomainTest (jsToLower url) = false := by
    unfold subdomainTest
    rw [splitSlashSlash_of_no_dbl _ hmapped]
    simp
  have hmr : ∀ r ∈ matchedRules (jsToLower url),
      r.text ≠ "Subdomain depth is unusually high." := by
    intro r hr
    have hm := List.mem_filter.mp hr
    have h1 := hm.1
    simp only [demoScanRules, List.mem_cons, List.not_mem_nil, or_false] at h1
    rcases h1 with rfl | rfl | rfl | rfl | rfl | rfl
    · decide
    · decide
    · decide
    · decide
    · exfalso
      have htest : subdomainTest (jsToLower url) = true := hm.2
      rw [hsubF] at htest
      cases htest
    · decide
  refine ⟨hsubF, ?_, ?_⟩
  · intro s hs
    by_cases he : ((matchedRules (jsToLower url)).map
        (fun r => (⟨r.level, r.text⟩ : Signal2))).isEmpty
    · simp only [demoScan, he, if_true] at hs
      simp only [List.mem_singleton] at hs
      subst hs
      decide
    · have he' : ((matchedRules (jsToLower url)).map
          (fun r => (⟨r.level, r.text⟩ : Signal2))).isEmpty = false := by
        cases hE : ((matchedRules (jsToLower url)).map
            (fun r => (⟨r.level, r.text⟩ : Signal2))).isEmpty
        · rfl
        · exact absurd hE he
      simp only [demoScan, he', Bool.false_eq_true, if_false] at hs
      obtain ⟨r, hrm, rfl⟩ := List.mem_map.mp hs
      exact hmr r hrm
  · have hsubT : ruleSubdomain.test (jsToLower url) = false := hsubF
    unfold rawScore matchedRules demoScanRules
    simp [List.filter_cons, hsubT]

/-- Witness for C10 at the concrete input `example.com` (no `//`). -/
theorem c10_no_host_subdomain_rule_off_witness :
    jsIncludes "example.com" "//" = false ∧
    (subdomainTest (jsToLower "example.com") = false ∧
      (∀ s ∈ (demoScan "example.com" "2025-01-01T00:00:00.000Z").signals,
        s.text ≠ "Subdomain depth is unusually high.") ∧
      rawScore (jsToLower "example.com") =
        90 + sumDeltas (List.filter (fun r => r.test (jsToLower "example.com"))
          [ruleScheme, ruleAt, ruleKeywords, ruleShortener, ruleFinancial])) :=
  ⟨by decide,
   c10_no_host_subdomain_rule_off "example.com" "2025-01-01T00:00:00.000Z"
     (by decide)⟩

end TrustLayer
